import Mathlib

/-
  Verification development for the ridewave ride-hailing backend core:
  the geospatial driver index, route cache, dispatch matcher and ride
  lifecycle handlers, shallowly embedded from the Go source
  (server/stores (socket.go), server/handlers/ride.go,
  server/handlers/driver.go, server/utils/geo.go).

  Modelling conventions:
  * Go float64 coordinates, fares and distances are modelled as exact
    rationals; none of the verified code paths depend on floating-point
    rounding.
  * The Redis store is modelled as an explicit state value with a
    current time in seconds; key TTLs are absolute expiry deadlines and
    a key is live exactly while the current time is strictly below its
    deadline.
  * The spatial distance computed inside Redis GEORADIUS is an external
    collaborator; it is passed as an explicit function argument
    (query point to entry point, both as (longitude, latitude) pairs).
  * Go strconv.ParseFloat is modelled for plain decimal literals
    (optional sign, digits, optional fractional part), the only shapes
    the verified call sites exercise.
-/

namespace RideWave

/-- Splitting a character list on a separator character: models Go
strings.Split for a one-character separator (the only shape the
verified call sites use).  Splitting the empty string yields one empty
part, matching Go. -/
def splitOnChar (sep : Char) : List Char → List (List Char)
  | [] => [[]]
  | c :: rest =>
      if c = sep then [] :: splitOnChar sep rest
      else match splitOnChar sep rest with
        | [] => [[c]]
        | h :: t => (c :: h) :: t

/-- Go strings.TrimSpace: drop leading and trailing whitespace. -/
def trimSpace (l : List Char) : List Char :=
  ((l.dropWhile Char.isWhitespace).reverse.dropWhile Char.isWhitespace).reverse

/-- Numeric value of a non-empty all-digit character block, as Go
ParseFloat sees the integral or fractional block of a plain decimal
literal. -/
def digitsVal (l : List Char) : Option Nat :=
  if l ≠ [] ∧ l.all Char.isDigit then
    some (l.foldl (fun acc c => acc * 10 + (c.toNat - 48)) 0)
  else none

/-- Unsigned decimal literal parser: models Go strconv.ParseFloat on
inputs of the form digits, digits.digits, digits. or .digits. -/
def parseUnsigned (l : List Char) : Option ℚ :=
  match splitOnChar '.' l with
  | [ip] => (digitsVal ip).map (fun n => (n : ℚ))
  | [ip, fp] =>
      match digitsVal ip, digitsVal fp with
      | some i, some f => some ((i : ℚ) + (f : ℚ) / (10 : ℚ) ^ fp.length)
      | some i, none => if fp = [] then some ((i : ℚ)) else none
      | none, some f => if ip = [] then some ((f : ℚ) / (10 : ℚ) ^ fp.length) else none
      | none, none => none
  | _ => none

/-- Signed decimal literal parser; Go strconv.ParseFloat returns an
error (here: none) on anything else, and the ridewave callers ignore
that error, so the component silently defaults to 0. -/
def parseDecimal (l : List Char) : Option ℚ :=
  match l with
  | c :: rest =>
      if c = '-' then (parseUnsigned rest).map Neg.neg
      else if c = '+' then parseUnsigned rest
      else parseUnsigned (c :: rest)
  | [] => none

/-- Embeds utils.ParseLatLng (server/utils/geo.go:9-17): split on comma,
return (0,0) unless exactly two parts, then parse each trimmed part with
the ParseFloat error ignored (a failed part yields 0 for that part). -/
def ParseLatLng (s : String) : ℚ × ℚ :=
  match splitOnChar ',' s.toList with
  | [p0, p1] => ((parseDecimal (trimSpace p0)).getD 0, (parseDecimal (trimSpace p1)).getD 0)
  | _ => (0, 0)

/-- Driver location metadata, embedding stores.DriverLocation
(socket.go stores file, lines 195-200). -/
structure DriverLocation where
  latitude : ℚ
  longitude : ℚ
  socketId : String
  driverId : String
deriving DecidableEq, Repr

/-- Cached priced route, embedding stores.CachedRoute
(socket.go stores file, lines 208-220). -/
structure CachedRoute where
  polyline : String
  distance : ℤ
  duration : ℤ
  fare : ℚ
  vehicleType : String
  originName : String
  destinationName : String
  originLat : ℚ
  originLng : ℚ
  destinationLat : ℚ
  destinationLng : ℚ
deriving DecidableEq, Repr

/-- Entry of the drivers geo sorted set (Redis key drivers:geo):
member name and its stored coordinate. -/
structure GeoEntry where
  name : String
  lon : ℚ
  lat : ℚ
deriving DecidableEq, Repr

/-- Errors surfaced by the modelled Redis client: redisNil is the
go-redis redis.Nil miss on GET, invalidLonLat is the GEOADD rejection
of an out-of-range longitude/latitude pair. -/
inductive RedisErr where
  | redisNil
  | invalidLonLat
deriving DecidableEq, Repr

/-- The modelled Redis state: the drivers:geo sorted set, the
drivers:data:<id> metadata keys and routes:cache:<id> route keys (both
stored with their absolute expiry deadline in seconds), and the current
time in seconds.  Key strings are modelled by the id part alone since
the two keyspaces are disjoint by construction in the source. -/
structure RedisState where
  geo : List GeoEntry
  data : List (String × DriverLocation × Nat)
  routes : List (String × CachedRoute × Nat)
  now : Nat
deriving DecidableEq, Repr

/-- Association-list upsert: replaces the first binding of the key in
place, or appends a new binding; models a Redis SET / GEOADD update of
a single key or member. -/
def upsert (k : String) (v : α) : List (String × α) → List (String × α)
  | [] => [(k, v)]
  | (k0, v0) :: rest => if k = k0 then (k, v) :: rest else (k0, v0) :: upsert k v rest

/-- First binding of a key in an association list. -/
def lookupKey (k : String) : List (String × α) → Option α
  | [] => none
  | (k0, v0) :: rest => if k = k0 then some v0 else lookupKey k rest

/-- Redis GET on a key stored with a TTL: the value is visible exactly
while the current time is strictly below the expiry deadline. -/
def getLive (l : List (String × α × Nat)) (k : String) (now : Nat) : Option α :=
  match lookupKey k l with
  | some (v, deadline) => if now < deadline then some v else none
  | none => none

/-- Upsert of a geo sorted-set member (GEOADD updates the coordinate of
an existing member in place). -/
def geoUpsert (e : GeoEntry) : List GeoEntry → List GeoEntry
  | [] => [e]
  | e0 :: rest => if e.name = e0.name then e :: rest else e0 :: geoUpsert e rest

/-- The Redis GEOADD latitude upper bound 85.05112878, written in
lowest terms (4252556439/50000000) through the raw constructor so that
comparisons against it evaluate. -/
def geoLatMax : ℚ := ⟨4252556439, 50000000, by norm_num, by decide⟩

/-- The Redis GEOADD latitude lower bound -85.05112878. -/
def geoLatMin : ℚ := ⟨-4252556439, 50000000, by norm_num, by decide⟩

/-- Redis GEOADD coordinate validation: longitude must lie in
[-180, 180] and latitude in the Web-Mercator band
[-85.05112878, 85.05112878]; anything else is rejected with an error
and nothing is stored. -/
def geoCoordOk (lon lat : ℚ) : Prop :=
  -180 ≤ lon ∧ lon ≤ 180 ∧ geoLatMin ≤ lat ∧ lat ≤ geoLatMax

instance (lon lat : ℚ) : Decidable (geoCoordOk lon lat) := by
  unfold geoCoordOk; infer_instance

/-- Embeds stores.UpdateDriverLocation (socket.go stores file, lines
246-270): GEOADD the driver into drivers:geo (failing, with no state
change, on an out-of-range coordinate), then SET the metadata key with
a one-hour TTL.  The one-hour TTL is 3600 seconds from now. -/
def UpdateDriverLocation (st : RedisState) (driverID : String) (lat lon : ℚ)
    (socketID : String) : Except RedisErr RedisState :=
  if geoCoordOk lon lat then
    .ok { st with
          geo := geoUpsert ⟨driverID, lon, lat⟩ st.geo,
          data := upsert driverID
            (⟨lat, lon, socketID, driverID⟩, st.now + 3600) st.data }
  else
    .error .invalidLonLat

/-- Embeds stores.RemoveDriver (socket.go stores file, lines 272-276):
ZREM the geo member and DEL the metadata key; a no-op when the driver
is absent. -/
def RemoveDriver (st : RedisState) (driverID : String) : RedisState :=
  { st with
    geo := st.geo.filter (fun e => e.name ≠ driverID),
    data := st.data.filter (fun p => p.1 ≠ driverID) }

/-- Time passing: the store's own clock advances; no key content
changes, keys past their deadline simply stop being visible. -/
def tick (st : RedisState) (d : Nat) : RedisState :=
  { st with now := st.now + d }

/-- Embeds stores.StorePlannedRoute (socket.go stores file, lines
222-230): SET the route key with a fixed 15-minute (900 second) TTL. -/
def StorePlannedRoute (st : RedisState) (routeID : String) (route : CachedRoute) :
    RedisState :=
  { st with routes := upsert routeID (route, st.now + 900) st.routes }

/-- Embeds stores.GetPlannedRoute (socket.go stores file, lines
232-244): GET the route key; a missing or expired key surfaces as the
go-redis redis.Nil error; JSON round-tripping of the stored struct is
modelled as the identity. -/
def GetPlannedRoute (st : RedisState) (routeID : String) : Except RedisErr CachedRoute :=
  match getLive st.routes routeID st.now with
  | some r => .ok r
  | none => .error .redisNil

/-- A GEORADIUS hit before the metadata join: member name, stored
coordinate, and the distance from the query point reported by the
store (WithCoord, WithDist). -/
structure GeoHit where
  name : String
  lon : ℚ
  lat : ℚ
  dist : ℚ
deriving DecidableEq, Repr

/-- Ordering of GEORADIUS hits by reported distance (Sort "ASC"). -/
def hitLE (a b : GeoHit) : Prop := a.dist ≤ b.dist

instance : DecidableRel hitLE := fun a b => by unfold hitLE; infer_instance

instance : IsTotal GeoHit hitLE := ⟨fun a b => le_total a.dist b.dist⟩

instance : IsTrans GeoHit hitLE := ⟨fun _ _ _ h1 h2 => le_trans h1 h2⟩

/-- The Redis GEORADIUS query on drivers:geo: every member whose
collaborator-computed distance from the query point is within the
radius, sorted ascending by that distance.  distFn is the store's
distance collaborator on (longitude, latitude) pairs. -/
def geoRadius (distFn : ℚ × ℚ → ℚ × ℚ → ℚ) (st : RedisState)
    (lon lat radius : ℚ) : List GeoHit :=
  List.insertionSort hitLE
    (st.geo.filterMap (fun e =>
      if distFn (lon, lat) (e.lon, e.lat) ≤ radius then
        some ⟨e.name, e.lon, e.lat, distFn (lon, lat) (e.lon, e.lat)⟩
      else none))

/-- Embeds stores.GetNearbyDrivers (socket.go stores file, lines
278-308): GEORADIUS with WithCoord/WithDist/Sort ASC, then for each hit
GET the metadata key, silently skipping hits whose metadata key is
missing or expired, and overwrite the metadata coordinates with the geo
coordinates of the hit.  The store itself being reachable, the call
returns ok, with the empty list when nothing matches. -/
def GetNearbyDrivers (distFn : ℚ × ℚ → ℚ × ℚ → ℚ) (st : RedisState)
    (lat lon radius : ℚ) : Except RedisErr (List DriverLocation) :=
  .ok ((geoRadius distFn st lon lat radius).filterMap (fun h =>
    match getLive st.data h.name st.now with
    | some d => some { d with latitude := h.lat, longitude := h.lon }
    | none => none))

/-- The nearby list as the Go callers consume it: both CreateRide and
the dispatch subscriber discard the error value, leaving the nil slice
on error. -/
def nearbyList (distFn : ℚ × ℚ → ℚ × ℚ → ℚ) (st : RedisState)
    (lat lon radius : ℚ) : List DriverLocation :=
  match GetNearbyDrivers distFn st lat lon radius with
  | .ok l => l
  | .error _ => []

/-- The ride fields the modelled handlers read or write: embeds the
rides row as created by handlers.CreateRide (ride.go:263-278) and
updated by handlers.UpdatingRideStatus (driver.go:459-464). -/
structure Ride where
  id : String
  userId : String
  driverId : Option String
  charge : ℚ
  status : String
deriving DecidableEq, Repr

/-- The driver-account fields the modelled handlers read: embeds the
driver row columns used by the middleware-loaded driver and by the
eligibility query in CreateRide (ride.go:302-305). -/
structure DriverRec where
  id : String
  name : String
  isOnline : Bool
  status : String
  vehicleType : String
  notificationToken : Option String
deriving DecidableEq, Repr

/-- Embeds handlers.UpdatingRideStatus (server/handlers/driver.go,
lines 413-517), the ride status transition endpoint
(PUT driver/ride/status), restricted to its HTTP status and its effect
on the rides table.  Control flow from the source: 403 unless the
calling driver is online with an active account; 400 unless the target
status is one of Accepted, InProgress, Completed, Cancelled; 404 when
no ride row has the given id (the SELECT charge lookup); then a single
UPDATE whose WHERE clause matches the ride id AND the calling driver
being the assigned driverId — with no condition on the current status —
returning 400 when the UPDATE matches no row and 200 otherwise. -/
def UpdatingRideStatus (rides : List Ride) (drv : DriverRec)
    (rideID rideStatus : String) : Nat × List Ride :=
  if ¬(drv.isOnline = true ∧ drv.status = "active") then (403, rides)
  else if ¬(rideStatus = "Accepted" ∨ rideStatus = "InProgress" ∨
            rideStatus = "Completed" ∨ rideStatus = "Cancelled") then (400, rides)
  else if ¬(rides.any (fun r => r.id = rideID)) then (404, rides)
  else if rides.any (fun r => r.id = rideID ∧ r.driverId = some drv.id) then
    (200, rides.map (fun r =>
      if r.id = rideID ∧ r.driverId = some drv.id then { r with status := rideStatus } else r))
  else (400, rides)

/-- Embeds handlers.CreateRide (server/handlers/ride.go, lines
243-359), restricted to its HTTP status, its response payload
(ride id and nearby-driver count) and its effect on the rides table:
fetch the cached route (a miss responds 410 Gone with no ride
created), INSERT the ride with driverId NULL and status Requested
(the generated uuid is passed in as newRideID), query the nearby
drivers within 5 km of the cached origin, and respond 201 with the
ride id and the raw nearby count. -/
def CreateRide (distFn : ℚ × ℚ → ℚ × ℚ → ℚ) (st : RedisState)
    (rides : List Ride) (userID routeID vehicleType newRideID : String) :
    Nat × Option (String × Nat) × List Ride :=
  match GetPlannedRoute st routeID with
  | .error _ => (410, none, rides)
  | .ok cached =>
      let ride : Ride :=
        { id := newRideID, userId := userID, driverId := none,
          charge := cached.fare, status := "Requested" }
      let nearby := nearbyList distFn st cached.originLat cached.originLng 5
      (201, some (newRideID, nearby.length), ride :: rides)

/-- The driver rows selected by the eligibility query in CreateRide's
background block (ride.go:302-305): nearby ids, online, account status
active, matching vehicle type, non-null non-empty notification
token. -/
def eligibleRows (db : List DriverRec) (ids : List String) (vehicleType : String) :
    List DriverRec :=
  db.filter (fun d =>
    d.id ∈ ids ∧ d.isOnline = true ∧ d.status = "active" ∧
    d.vehicleType = vehicleType ∧ d.notificationToken ≠ none ∧
    d.notificationToken ≠ some "")

/-- The FCM tokens CreateRide's background block pushes to
(ride.go:289-338): nothing when the raw nearby list is empty, else the
tokens of the eligible rows (re-checked non-nil and non-empty as in the
Go scan loop). -/
def dispatchPushTokens (distFn : ℚ × ℚ → ℚ × ℚ → ℚ) (st : RedisState)
    (db : List DriverRec) (originLat originLng : ℚ) (vehicleType : String) :
    List String :=
  if (nearbyList distFn st originLat originLng 5).length = 0 then []
  else
    (eligibleRows db
        ((nearbyList distFn st originLat originLng 5).map (fun d => d.driverId))
        vehicleType).filterMap
      (fun d => match d.notificationToken with
        | some t => if t ≠ "" then some t else none
        | none => none)

/-- Embeds the ride-request dispatch subscriber in socket.InitSocketIO
(server/socket/socket.go, lines 138-175): on a RideRequestEvent it
re-runs the nearby lookup at the pickup point with the fixed 5 km
radius and emits the newRide event to the room driver:<id> of EVERY
driver in that raw list, with no eligibility cross-check. -/
def socketDispatchTargets (distFn : ℚ × ℚ → ℚ × ℚ → ℚ) (st : RedisState)
    (pickupLat pickupLon : ℚ) : List String :=
  (nearbyList distFn st pickupLat pickupLon 5).map
    (fun d => "driver:" ++ d.driverId)

/-- Embeds handlers.UpdateDriverLocationHandler (server/handlers/
driver.go, lines 274-303), the PUT driver/location endpoint, given the
snap-to-road collaborator as a function (none models the collaborator
failing, in which case the raw coordinates are used).  The Gin
binding:"required" tags on Lat and Lng fail on a zero float value, so
a body with lat=0 or lng=0 is answered 400 "Invalid request" before
the store is touched.  Past binding, the store update is invoked with
an empty socket id and its error is discarded — the handler responds
200 "Location updated" regardless of the store outcome. -/
def UpdateDriverLocationHandler (st : RedisState) (driverID : String)
    (lat lng : ℚ) (snap : ℚ → ℚ → Option (ℚ × ℚ)) : Nat × RedisState :=
  if lat = 0 ∨ lng = 0 then (400, st)
  else
    let fin := (snap lat lng).getD (lat, lng)
    match UpdateDriverLocation st driverID fin.1 fin.2 "" with
    | .ok st2 => (200, st2)
    | .error _ => (200, st)

/-- The CachedRoute value handlers.GetRideEstimate (server/handlers/
ride.go, lines 113-170) stores: origin and destination strings are run
through ParseLatLng, the route-planning collaborator supplies polyline,
distance and duration, and the computed fare is passed through. -/
def estimateCachedRoute (origin destination vehicleType polyline : String)
    (distance duration : ℤ) (fare : ℚ) : CachedRoute :=
  { polyline := polyline, distance := distance, duration := duration,
    fare := fare, vehicleType := vehicleType,
    originName := origin, destinationName := destination,
    originLat := (ParseLatLng origin).1, originLng := (ParseLatLng origin).2,
    destinationLat := (ParseLatLng destination).1,
    destinationLng := (ParseLatLng destination).2 }

/-- One step of the geospatial index lifecycle: a successful position
update, a driver removal, or time passing (the index's own expiry
mechanism).  A failed update leaves the state unchanged and so adds no
reachable states. -/
inductive Step : RedisState → RedisState → Prop where
  | update (st st2 : RedisState) (d : String) (lat lon : ℚ) (sid : String) :
      UpdateDriverLocation st d lat lon sid = .ok st2 → Step st st2
  | remove (st : RedisState) (d : String) : Step st (RemoveDriver st d)
  | timePass (st : RedisState) (d : Nat) : Step st (tick st d)

/-- The empty store at time zero. -/
def initialState : RedisState := { geo := [], data := [], routes := [], now := 0 }

/-- States reachable from the empty store by position updates, driver
removals and time passing. -/
def Reachable (st : RedisState) : Prop :=
  Relation.ReflTransGen Step initialState st

-- Decidable equality of Except results, used to evaluate the model on
-- concrete inputs.
deriving instance DecidableEq for Except

/-- A concrete stand-in for the store's distance collaborator, used to
evaluate the model on concrete inputs: zero at the query point itself
and 6 km everywhere else (any function with distance zero from a point
to itself is an admissible collaborator). -/
def evalDist (p q : ℚ × ℚ) : ℚ := if p = q then 0 else 6

/-- Invariant of reachable store states: every metadata record is keyed
by its own driver id, carries a deadline at most one hour in the
future, and has a corresponding entry in the spatial structure. -/
def dataGeoInv (st : RedisState) : Prop :=
  ∀ p ∈ st.data, p.2.1.driverId = p.1 ∧ p.2.2 ≤ st.now + 3600 ∧
    ∃ e ∈ st.geo, e.name = p.1


/-- Concrete evaluation input: the rides table right after CreateRide
inserts a ride — driverId NULL, status Requested. -/
def ridesFresh : List Ride :=
  [{ id := "r1", userId := "u1", driverId := none, charge := 100, status := "Requested" }]

/-- Concrete evaluation input: an online, admin-approved driver. -/
def drvA : DriverRec :=
  { id := "dA", name := "Alice", isOnline := true, status := "active",
    vehicleType := "Car", notificationToken := some "tokA" }

/-- Concrete evaluation input: a second online, admin-approved driver. -/
def drvB : DriverRec :=
  { id := "dB", name := "Bob", isOnline := true, status := "active",
    vehicleType := "Car", notificationToken := some "tokB" }

/-- Concrete evaluation input: a ride already assigned to drvA and
already Completed. -/
def ridesDone : List Ride :=
  [{ id := "r2", userId := "u1", driverId := some "dA", charge := 100, status := "Completed" }]

/-- Concrete store state: driver d1 present in the geo index with live
metadata (deadline 100, current time 0). -/
def stGeo1 : RedisState :=
  { geo := [⟨"d1", 77, 12⟩],
    data := [("d1", ⟨12, 77, "s1", "d1"⟩, 100)],
    routes := [], now := 0 }

/-- Concrete relational rows: d1 exists but is NOT online — ineligible
for dispatch per the system of record. -/
def dbOffline : List DriverRec :=
  [{ id := "d1", name := "Dee", isOnline := false, status := "active",
     vehicleType := "Car", notificationToken := some "tok1" }]

/-- Concrete relational rows: d1 online, active, Car, with a push
token — eligible for dispatch. -/
def dbOnline : List DriverRec :=
  [{ id := "d1", name := "Dee", isOnline := true, status := "active",
     vehicleType := "Car", notificationToken := some "tok1" }]

/-- Concrete store state reached by one position update from the empty
store: d1 in the geo index, metadata deadline 3600, time still 0. -/
def stC4a : RedisState :=
  { geo := [⟨"d1", 77, 12⟩],
    data := [("d1", ⟨12, 77, "s1", "d1"⟩, 3600)],
    routes := [], now := 0 }

/-- stC4a after one hour of idle time: the geo entry is still present
but the metadata deadline has been reached. -/
def stC4b : RedisState :=
  { geo := [⟨"d1", 77, 12⟩],
    data := [("d1", ⟨12, 77, "s1", "d1"⟩, 3600)],
    routes := [], now := 3600 }

/-- Concrete cached route quote for evaluation. -/
def routeW : CachedRoute :=
  { polyline := "pl", distance := 12000, duration := 1500, fare := 245,
    vehicleType := "Car", originName := "A", destinationName := "B",
    originLat := 12, originLng := 77, destinationLat := 13, destinationLng := 80 }

/-- Concrete store state holding the quote routeW under token "tok"
with its full TTL remaining. -/
def stRoute : RedisState :=
  { geo := [], data := [], routes := [("tok", routeW, 900)], now := 0 }

/-- Concrete store state with one geo entry whose metadata is live and
one whose metadata has expired (deadline 5 at current time 10). -/
def stMix : RedisState :=
  { geo := [⟨"live1", 77, 12⟩, ⟨"stale1", 77, 12⟩],
    data := [("live1", ⟨12, 77, "sL", "live1"⟩, 100),
             ("stale1", ⟨12, 77, "sS", "stale1"⟩, 5)],
    routes := [], now := 10 }

theorem lookupKey_upsert_self (k : String) (v : α) :
    ∀ l : List (String × α), lookupKey k (upsert k v l) = some v
  | [] => by simp [upsert, lookupKey]
  | (k0, v0) :: rest => by
      by_cases h : k = k0
      · simp [upsert, h, lookupKey]
      · simp [upsert, h, lookupKey, lookupKey_upsert_self k v rest]

theorem mem_upsert {k : String} {v : α} {p : String × α} :
    ∀ {l : List (String × α)}, p ∈ upsert k v l → p = (k, v) ∨ p ∈ l := by
  intro l
  induction l with
  | nil => intro h; simp [upsert] at h; exact Or.inl h
  | cons q rest ih =>
      obtain ⟨k0, v0⟩ := q
      by_cases h : k = k0
      · intro hp
        simp only [upsert, if_pos h, List.mem_cons] at hp
        rcases hp with h1 | h2
        · exact Or.inl h1
        · exact Or.inr (List.mem_cons_of_mem _ h2)
      · intro hp
        simp only [upsert, if_neg h, List.mem_cons] at hp
        rcases hp with h1 | h2
        · exact Or.inr (by simp [h1])
        · rcases ih h2 with h3 | h4
          · exact Or.inl h3
          · exact Or.inr (List.mem_cons_of_mem _ h4)

theorem lookupKey_mem {k : String} {v : α} :
    ∀ {l : List (String × α)}, lookupKey k l = some v → (k, v) ∈ l := by
  intro l
  induction l with
  | nil => intro h; simp [lookupKey] at h
  | cons q rest ih =>
      obtain ⟨k0, v0⟩ := q
      by_cases h : k = k0
      · intro hp
        simp only [lookupKey, if_pos h, Option.some.injEq] at hp
        simp [← h, hp]
      · intro hp
        simp only [lookupKey, if_neg h] at hp
        exact List.mem_cons_of_mem _ (ih hp)

theorem getLive_some_mem {l : List (String × α × Nat)} {k : String} {v : α}
    {now : Nat} (h : getLive l k now = some v) :
    ∃ dl, (k, v, dl) ∈ l ∧ now < dl := by
  unfold getLive at h
  cases hl : lookupKey k l with
  | none => rw [hl] at h; simp at h
  | some p =>
      obtain ⟨v0, dl⟩ := p
      rw [hl] at h
      by_cases ht : now < dl
      · simp only [if_pos ht, Option.some.injEq] at h
        exact ⟨dl, by simpa [h] using lookupKey_mem hl, ht⟩
      · simp [if_neg ht] at h

theorem mem_geoUpsert_self (e : GeoEntry) : ∀ g : List GeoEntry, e ∈ geoUpsert e g
  | [] => by simp [geoUpsert]
  | e0 :: rest => by
      by_cases h : e.name = e0.name
      · simp [geoUpsert, h]
      · simp only [geoUpsert, if_neg h, List.mem_cons]
        exact Or.inr (mem_geoUpsert_self e rest)

theorem mem_geoUpsert {x e : GeoEntry} :
    ∀ {g : List GeoEntry}, x ∈ geoUpsert e g → x = e ∨ x ∈ g := by
  intro g
  induction g with
  | nil => intro h; simp [geoUpsert] at h; exact Or.inl h
  | cons e0 rest ih =>
      by_cases h : e.name = e0.name
      · intro hp
        simp only [geoUpsert, if_pos h, List.mem_cons] at hp
        rcases hp with h1 | h2
        · exact Or.inl h1
        · exact Or.inr (List.mem_cons_of_mem _ h2)
      · intro hp
        simp only [geoUpsert, if_neg h, List.mem_cons] at hp
        rcases hp with h1 | h2
        · exact Or.inr (by simp [h1])
        · rcases ih h2 with h3 | h4
          · exact Or.inl h3
          · exact Or.inr (List.mem_cons_of_mem _ h4)

theorem mem_geoUpsert_of_ne {x e : GeoEntry} (hne : x.name ≠ e.name) :
    ∀ {g : List GeoEntry}, x ∈ g → x ∈ geoUpsert e g := by
  intro g
  induction g with
  | nil => intro h; simp at h
  | cons e0 rest ih =>
      intro hx
      rcases List.mem_cons.mp hx with h1 | h2
      · by_cases h : e.name = e0.name
        · exact absurd (h1 ▸ h.symm) hne
        · simp [geoUpsert, if_neg h, h1]
      · by_cases h : e.name = e0.name
        · simp only [geoUpsert, if_pos h, List.mem_cons]
          exact Or.inr h2
        · simp only [geoUpsert, if_neg h, List.mem_cons]
          exact Or.inr (ih h2)

theorem getNearbyDrivers_eq_ok (distFn : ℚ × ℚ → ℚ × ℚ → ℚ) (st : RedisState)
    (lat lon radius : ℚ) :
    GetNearbyDrivers distFn st lat lon radius =
      .ok (nearbyList distFn st lat lon radius) := rfl

theorem mem_nearbyList_intro (distFn : ℚ × ℚ → ℚ × ℚ → ℚ) (st : RedisState)
    (lat lon radius : ℚ) (e : GeoEntry) (m : DriverLocation)
    (he : e ∈ st.geo) (hd : distFn (lon, lat) (e.lon, e.lat) ≤ radius)
    (hm : getLive st.data e.name st.now = some m) :
    { m with latitude := e.lat, longitude := e.lon } ∈ nearbyList distFn st lat lon radius := by
  have hhit : (⟨e.name, e.lon, e.lat, distFn (lon, lat) (e.lon, e.lat)⟩ : GeoHit) ∈
      geoRadius distFn st lon lat radius := by
    unfold geoRadius
    rw [List.mem_insertionSort]
    exact List.mem_filterMap.mpr ⟨e, he, by simp [hd]⟩
  show _ ∈ nearbyList distFn st lat lon radius
  unfold nearbyList GetNearbyDrivers
  exact List.mem_filterMap.mpr ⟨_, hhit, by simp [hm]⟩

theorem mem_nearbyList_elim (distFn : ℚ × ℚ → ℚ × ℚ → ℚ) (st : RedisState)
    (lat lon radius : ℚ) (r : DriverLocation)
    (h : r ∈ nearbyList distFn st lat lon radius) :
    ∃ e ∈ st.geo, distFn (lon, lat) (e.lon, e.lat) ≤ radius ∧
      ∃ m, getLive st.data e.name st.now = some m ∧
        r = { m with latitude := e.lat, longitude := e.lon } := by
  unfold nearbyList GetNearbyDrivers at h
  obtain ⟨hit, hmem, hjoin⟩ := List.mem_filterMap.mp h
  have hmem2 : hit ∈ geoRadius distFn st lon lat radius := hmem
  unfold geoRadius at hmem2
  rw [List.mem_insertionSort] at hmem2
  obtain ⟨e, he, heq⟩ := List.mem_filterMap.mp hmem2
  by_cases hd : distFn (lon, lat) (e.lon, e.lat) ≤ radius
  · rw [if_pos hd] at heq
    obtain rfl := Option.some_inj.mp heq
    dsimp only at hjoin
    cases hg : getLive st.data e.name st.now with
    | none => rw [hg] at hjoin; simp at hjoin
    | some m =>
        rw [hg] at hjoin
        simp only [Option.some.injEq] at hjoin
        exact ⟨e, he, hd, m, hg, hjoin.symm⟩
  · rw [if_neg hd] at heq; simp at heq

theorem dist_of_mem_geoRadius (distFn : ℚ × ℚ → ℚ × ℚ → ℚ) (st : RedisState)
    (lon lat radius : ℚ) (h : GeoHit) (hm : h ∈ geoRadius distFn st lon lat radius) :
    h.dist = distFn (lon, lat) (h.lon, h.lat) := by
  unfold geoRadius at hm
  rw [List.mem_insertionSort] at hm
  obtain ⟨e, _, heq⟩ := List.mem_filterMap.mp hm
  by_cases hd : distFn (lon, lat) (e.lon, e.lat) ≤ radius
  · rw [if_pos hd] at heq
    obtain rfl := Option.some_inj.mp heq
    rfl
  · rw [if_neg hd] at heq; simp at heq

theorem sorted_nearby_aux (distFn : ℚ × ℚ → ℚ × ℚ → ℚ) (q : ℚ × ℚ)
    (dataL : List (String × DriverLocation × Nat)) (now : Nat) :
    ∀ L : List GeoHit, List.Sorted hitLE L →
      (∀ h ∈ L, h.dist = distFn q (h.lon, h.lat)) →
      List.Sorted (fun a b : ℚ => a ≤ b)
        ((L.filterMap (fun h =>
            match getLive dataL h.name now with
            | some d => some { d with latitude := h.lat, longitude := h.lon }
            | none => none)).map (fun r => distFn q (r.longitude, r.latitude)))
  | [], _, _ => by simp
  | h :: t, hs, hinv => by
      have hs2 := List.sorted_cons.mp hs
      have htail := sorted_nearby_aux distFn q dataL now t hs2.2
        (fun x hx => hinv x (List.mem_cons_of_mem _ hx))
      cases hg : getLive dataL h.name now with
      | none => simpa [List.filterMap_cons, hg] using htail
      | some m =>
          simp only [List.filterMap_cons, hg, List.map_cons]
          rw [List.sorted_cons]
          refine ⟨?_, htail⟩
          intro y hy
          obtain ⟨r, hr, rfl⟩ := List.mem_map.mp hy
          obtain ⟨hit2, hmem2, hjoin2⟩ := List.mem_filterMap.mp hr
          have hy2 : distFn q (r.longitude, r.latitude) = hit2.dist := by
            cases hg2 : getLive dataL hit2.name now with
            | none => rw [hg2] at hjoin2; simp at hjoin2
            | some m2 =>
                rw [hg2] at hjoin2
                simp only [Option.some.injEq] at hjoin2
                rw [← hjoin2]
                exact (hinv hit2 (List.mem_cons_of_mem _ hmem2)).symm
          show distFn q (h.lon, h.lat) ≤ distFn q (r.longitude, r.latitude)
          rw [hy2, ← hinv h (List.mem_cons_self _ _)]
          exact hs2.1 hit2 hmem2

theorem reachable_dataGeoInv {st : RedisState} (h : Reachable st) : dataGeoInv st := by
  unfold Reachable at h
  induction h with
  | refl => intro p hp; simp [initialState] at hp
  | tail hab hbc ih =>
      cases hbc with
      | update st2 d lat lon sid hupd =>
          unfold UpdateDriverLocation at hupd
          by_cases hok : geoCoordOk lon lat
          · rw [if_pos hok] at hupd
            simp only [Except.ok.injEq] at hupd
            subst hupd
            intro p hp
            rcases mem_upsert hp with rfl | hold
            · exact ⟨rfl, le_refl _, ⟨d, lon, lat⟩, mem_geoUpsert_self _ _, rfl⟩
            · obtain ⟨h1, h2, e, he, hname⟩ := ih p hold
              refine ⟨h1, h2, ?_⟩
              by_cases hn : e.name = d
              · exact ⟨⟨d, lon, lat⟩, mem_geoUpsert_self _ _, by rw [← hname, hn]⟩
              · exact ⟨e, mem_geoUpsert_of_ne hn he, hname⟩
          · rw [if_neg hok] at hupd; exact absurd hupd (by simp)
      | remove d =>
          intro p hp
          simp only [RemoveDriver] at hp
          obtain ⟨hold, hne⟩ := List.mem_filter.mp hp
          obtain ⟨h1, h2, e, he, hname⟩ := ih p hold
          refine ⟨h1, h2, e, ?_, hname⟩
          apply List.mem_filter.mpr
          refine ⟨he, ?_⟩
          simp only [decide_eq_true_eq] at hne ⊢
          rw [hname]; exact hne
      | timePass dt =>
          intro p hp
          obtain ⟨h1, h2, e, he, hname⟩ := ih p hp
          refine ⟨h1, ?_, e, he, hname⟩
          simp only [tick]
          omega

/-- C10, counterexample: the input "x,77.2" does not consist of two
comma-separated numeric parts (its first part is not numeric), yet
ParseLatLng does not return (0, 0) for it: the unparsable part defaults
to 0 individually, giving (0, 77.2). -/
theorem C10_parseLatLng_counterexample :
    parseDecimal "x".toList = none ∧
    ParseLatLng "x,77.2" = (0, 386 / 5) ∧
    ParseLatLng "x,77.2" ≠ ((0 : ℚ), (0 : ℚ)) := by
  have hP : ParseLatLng "x,77.2" = ((0 : ℚ), (77 : ℚ) + (2 : ℚ) / (10 : ℚ) ^ 1) := rfl
  refine ⟨by decide, ?_, ?_⟩
  · rw [hP, Prod.mk.injEq]
    norm_num
  · rw [hP]
    intro hcon
    rw [Prod.mk.injEq] at hcon
    have h2 := hcon.2
    norm_num at h2

/-- C10, amended: ParseLatLng returns (0, 0) with no error for every
input that does not split into exactly two comma-separated parts; an
input that does split into two parts has each unparsable part default
to 0 individually; and the ride-estimate handler caches the route
quote with exactly these parsed coordinates, so a malformed origin
that does not split into two parts is cached as the valid-looking
coordinate (0, 0). -/
theorem C10_parseLatLng_amended :
    (∀ s : String, (splitOnChar ',' s.toList).length ≠ 2 → ParseLatLng s = (0, 0)) ∧
    (∀ s p0 p1, splitOnChar ',' s.toList = [p0, p1] →
      ParseLatLng s = ((parseDecimal (trimSpace p0)).getD 0,
                       (parseDecimal (trimSpace p1)).getD 0)) ∧
    (∀ origin destination vt poly dist dur fare,
      (splitOnChar ',' origin.toList).length ≠ 2 →
      (estimateCachedRoute origin destination vt poly dist dur fare).originLat = 0 ∧
      (estimateCachedRoute origin destination vt poly dist dur fare).originLng = 0) := by
  have h1 : ∀ s : String, (splitOnChar ',' s.toList).length ≠ 2 → ParseLatLng s = (0, 0) := by
    intro s hs
    unfold ParseLatLng
    cases hm : splitOnChar ',' s.toList with
    | nil => rfl
    | cons a t =>
        cases t with
        | nil => rfl
        | cons b t2 =>
            cases t2 with
            | nil => exact absurd (by rw [hm]; rfl) hs
            | cons c t3 => rfl
  refine ⟨h1, ?_, ?_⟩
  · intro s p0 p1 hm
    unfold ParseLatLng
    rw [hm]
  · intro origin destination vt poly dist dur fare hs
    have h2 : (estimateCachedRoute origin destination vt poly dist dur fare).originLat
        = (ParseLatLng origin).1 := rfl
    have h3 : (estimateCachedRoute origin destination vt poly dist dur fare).originLng
        = (ParseLatLng origin).2 := rfl
    rw [h2, h3, h1 origin hs]
    exact ⟨rfl, rfl⟩

/-- C10, witness: the amended theorem applied to the concrete
three-part input "1,2,3" and the concrete no-comma origin "junk". -/
theorem C10_parseLatLng_amended_witness :
    ((splitOnChar ',' "1,2,3".toList).length ≠ 2 ∧ ParseLatLng "1,2,3" = (0, 0)) ∧
    (splitOnChar ',' "junk".toList).length ≠ 2 ∧
    (estimateCachedRoute "junk" "13,80" "Car" "pl" 12000 1500 245).originLat = 0 := by
  refine ⟨⟨by decide, C10_parseLatLng_amended.1 "1,2,3" (by decide)⟩, by decide, ?_⟩
  exact (C10_parseLatLng_amended.2.2 "junk" "13,80" "Car" "pl" 12000 1500 245 (by decide)).1

/-- C1, code evaluation at the failing input: for a ride freshly
created by CreateRide (driverId NULL, status Requested), an Accepted
transition attempted by either of two online approved drivers matches
no row — the WHERE clause of UpdatingRideStatus requires
driverId = calling driver and never the Requested status — so BOTH
attempts fail with 400 and the ride stays unassigned and Requested
(the claim requires exactly one to succeed); and for a ride already
assigned and Completed, the assigned driver's Accepted transition
succeeds with 200 even though the ride is not in the Requested state
(the claim requires the update to match only Requested rides). -/
theorem C1_accept_not_conditional_on_requested :
    UpdatingRideStatus ridesFresh drvA "r1" "Accepted" = (400, ridesFresh) ∧
    UpdatingRideStatus ridesFresh drvB "r1" "Accepted" = (400, ridesFresh) ∧
    UpdatingRideStatus ridesDone drvA "r2" "Accepted" =
      (200, [{ id := "r2", userId := "u1", driverId := some "dA",
               charge := 100, status := "Accepted" }]) := by
  refine ⟨by decide, by decide, by decide⟩

/-- C3, counterexample: the driver location update path does not
reject an out-of-range coordinate with an InvalidCoordinate (400)
error: a PUT driver-location with latitude 100 and longitude 10 (both
non-zero, so the required-field binding passes; snap-to-road
collaborator failing, so raw coordinates are used) is answered 200
with the store unchanged — the store-level rejection is swallowed by
the handler, which ignores the update's error return. -/
theorem C3_invalidCoordinate_counterexample :
    (UpdateDriverLocationHandler initialState "d1" 100 10 (fun _ _ => none)).1 = 200 ∧
    (UpdateDriverLocationHandler initialState "d1" 100 10 (fun _ _ => none)).1 ≠ 400 ∧
    (UpdateDriverLocationHandler initialState "d1" 100 10 (fun _ _ => none)).2 = initialState := by
  refine ⟨by decide, by decide, by decide⟩

/-- C3, amended: updatePosition itself performs no range validation;
an out-of-range coordinate is rejected by the underlying geo store
(the update returns the store's invalid-coordinate error and nothing
is stored); the only 400 the HTTP handler produces is the Gin
required-field binding rejecting a body with lat=0 or lng=0 before
the store is touched — for every body that binds (both coordinates
non-zero) the handler discards the store error and responds 200; for
every in-range input the store update succeeds, storing both the
spatial entry and the metadata record with a one-hour deadline. -/
theorem C3_invalidCoordinate_amended :
    ∀ (st : RedisState) (d : String) (lat lon : ℚ) (sid : String),
      (¬ geoCoordOk lon lat →
        UpdateDriverLocation st d lat lon sid = .error .invalidLonLat) ∧
      (geoCoordOk lon lat →
        ∃ st2, UpdateDriverLocation st d lat lon sid = .ok st2 ∧
          lookupKey d st2.data = some (⟨lat, lon, sid, d⟩, st.now + 3600) ∧
          (⟨d, lon, lat⟩ : GeoEntry) ∈ st2.geo ∧ st2.now = st.now) ∧
      (∀ snap, (lat = 0 ∨ lon = 0) →
        UpdateDriverLocationHandler st d lat lon snap = (400, st)) ∧
      (∀ snap, lat ≠ 0 → lon ≠ 0 →
        (UpdateDriverLocationHandler st d lat lon snap).1 = 200) := by
  intro st d lat lon sid
  refine ⟨?_, ?_, ?_, ?_⟩
  · intro hbad
    unfold UpdateDriverLocation
    rw [if_neg hbad]
  · intro hok
    have hupd : UpdateDriverLocation st d lat lon sid = .ok
        { st with geo := geoUpsert ⟨d, lon, lat⟩ st.geo,
                  data := upsert d (⟨lat, lon, sid, d⟩, st.now + 3600) st.data } := by
      unfold UpdateDriverLocation
      rw [if_pos hok]
    exact ⟨_, hupd, lookupKey_upsert_self d _ st.data, mem_geoUpsert_self _ st.geo, rfl⟩
  · intro snap hzero
    unfold UpdateDriverLocationHandler
    rw [if_pos hzero]
  · intro snap hlat hlon
    unfold UpdateDriverLocationHandler
    rw [if_neg (by push_neg; exact ⟨hlat, hlon⟩)]
    cases h : UpdateDriverLocation st d ((snap lat lon).getD (lat, lon)).1
        ((snap lat lon).getD (lat, lon)).2 "" with
    | ok st2 => simp [h]
    | error e => simp [h]

/-- C3, witness: the amended theorem applied to the in-range input
(12, 77) from the empty store, to the handler at the same point, and
to the handler at a zero latitude (binding rejection). -/
theorem C3_invalidCoordinate_amended_witness :
    (∃ st2, UpdateDriverLocation initialState "d1" 12 77 "s1" = .ok st2 ∧
      lookupKey "d1" st2.data = some (⟨12, 77, "s1", "d1"⟩, initialState.now + 3600) ∧
      (⟨"d1", 77, 12⟩ : GeoEntry) ∈ st2.geo ∧ st2.now = initialState.now) ∧
    (UpdateDriverLocationHandler initialState "d1" 12 77 (fun _ _ => none)).1 = 200 ∧
    UpdateDriverLocationHandler initialState "d1" 0 77 (fun _ _ => none)
      = (400, initialState) := by
  refine ⟨(C3_invalidCoordinate_amended initialState "d1" 12 77 "s1").2.1 (by decide),
    ?_, ?_⟩
  · exact (C3_invalidCoordinate_amended initialState "d1" 12 77 "s1").2.2.2
      (fun _ _ => none) (by decide) (by decide)
  · exact (C3_invalidCoordinate_amended initialState "d1" 0 77 "s1").2.2.1
      (fun _ _ => none) (Or.inl rfl)

/-- C5: creating a ride from an unknown or expired route token
responds 410 Gone and leaves the rides state unchanged; with a live
token it responds 201 with the new ride id and the nearby-driver
count, inserting exactly one ride, unassigned and in the Requested
state, priced from the cached quote. -/
theorem C5_createRide_gone_or_created :
    ∀ (distFn : ℚ × ℚ → ℚ × ℚ → ℚ) (st : RedisState) (rides : List Ride)
      (uid rid vt newId : String),
      (∀ e, GetPlannedRoute st rid = .error e →
        CreateRide distFn st rides uid rid vt newId = (410, none, rides)) ∧
      (∀ cached, GetPlannedRoute st rid = .ok cached →
        CreateRide distFn st rides uid rid vt newId =
          (201, some (newId,
             (nearbyList distFn st cached.originLat cached.originLng 5).length),
           { id := newId, userId := uid, driverId := none, charge := cached.fare,
             status := "Requested" } :: rides)) := by
  intro distFn st rides uid rid vt newId
  constructor
  · intro e he
    unfold CreateRide
    rw [he]
  · intro cached hc
    unfold CreateRide
    rw [hc]

/-- C5, witness: the theorem applied to a store with no route key
(410, rides unchanged) and to a store holding a live quote (201 with
id and count). -/
theorem C5_createRide_gone_or_created_witness :
    (GetPlannedRoute initialState "tok" = .error .redisNil ∧
     CreateRide evalDist initialState [] "u1" "tok" "Car" "r9" = (410, none, [])) ∧
    (GetPlannedRoute stRoute "tok" = .ok routeW ∧
     CreateRide evalDist stRoute [] "u1" "tok" "Car" "r9" =
       (201, some ("r9",
          (nearbyList evalDist stRoute routeW.originLat routeW.originLng 5).length),
        [{ id := "r9", userId := "u1", driverId := none, charge := routeW.fare,
           status := "Requested" }])) := by
  refine ⟨⟨by decide, ?_⟩, ⟨by decide, ?_⟩⟩
  · exact (C5_createRide_gone_or_created evalDist initialState [] "u1" "tok" "Car" "r9").1
      .redisNil (by decide)
  · exact (C5_createRide_gone_or_created evalDist stRoute [] "u1" "tok" "Car" "r9").2
      routeW (by decide)

/-- C6: a stored quote is fetched back identically at any time
strictly before its fixed 15-minute (900 second) TTL elapses; once the
TTL has elapsed the fetch returns the store's miss error, and a token
that never existed returns the very same miss error, so expired and
never-existed tokens are observationally identical. -/
theorem C6_routeCache_ttl :
    ∀ (st : RedisState) (tok : String) (route : CachedRoute) (d : Nat),
      (d < 900 →
        GetPlannedRoute (tick (StorePlannedRoute st tok route) d) tok = .ok route) ∧
      (900 ≤ d →
        GetPlannedRoute (tick (StorePlannedRoute st tok route) d) tok =
          .error .redisNil) ∧
      (∀ tok2, lookupKey tok2 st.routes = none →
        GetPlannedRoute st tok2 = .error .redisNil) := by
  intro st tok route d
  have hbase : lookupKey tok (upsert tok (route, st.now + 900) st.routes)
      = some (route, st.now + 900) := lookupKey_upsert_self tok _ st.routes
  refine ⟨?_, ?_, ?_⟩
  · intro hd
    unfold GetPlannedRoute getLive tick StorePlannedRoute
    simp only [hbase]
    rw [if_pos (by omega)]
  · intro hd
    unfold GetPlannedRoute getLive tick StorePlannedRoute
    simp only [hbase]
    rw [if_neg (by omega)]
  · intro tok2 hnone
    unfold GetPlannedRoute getLive
    rw [hnone]

/-- C6, witness: the theorem applied to a concrete quote at elapsed
times 899 (still fetchable), 900 (expired), and to a token never
stored. -/
theorem C6_routeCache_ttl_witness :
    ((899 : Nat) < 900 ∧
     GetPlannedRoute (tick (StorePlannedRoute initialState "tok" routeW) 899) "tok"
       = .ok routeW) ∧
    ((900 : Nat) ≤ 900 ∧
     GetPlannedRoute (tick (StorePlannedRoute initialState "tok" routeW) 900) "tok"
       = .error .redisNil) ∧
    (lookupKey "nope" initialState.routes = none ∧
     GetPlannedRoute initialState "nope" = .error .redisNil) := by
  refine ⟨⟨by decide, (C6_routeCache_ttl initialState "tok" routeW 899).1 (by decide)⟩,
    ⟨by decide, (C6_routeCache_ttl initialState "tok" routeW 900).2.1 (by decide)⟩,
    ⟨by decide, (C6_routeCache_ttl initialState "tok" routeW 0).2.2 "nope" (by decide)⟩⟩

/-- C7: after a successful position update, an immediate nearby query
at the same point with any positive radius (under any collaborator
distance that is zero from a point to itself) returns a list
containing that driver's freshly stored record. -/
theorem C7_update_then_query_returns_driver :
    ∀ (distFn : ℚ × ℚ → ℚ × ℚ → ℚ) (st st2 : RedisState) (d : String)
      (lat lon : ℚ) (sid : String) (radius : ℚ),
      distFn (lon, lat) (lon, lat) = 0 → 0 < radius →
      UpdateDriverLocation st d lat lon sid = .ok st2 →
      GetNearbyDrivers distFn st2 lat lon radius =
        .ok (nearbyList distFn st2 lat lon radius) ∧
      (⟨lat, lon, sid, d⟩ : DriverLocation) ∈ nearbyList distFn st2 lat lon radius := by
  intro distFn st st2 d lat lon sid radius hdd hrad hupd
  refine ⟨getNearbyDrivers_eq_ok distFn st2 lat lon radius, ?_⟩
  unfold UpdateDriverLocation at hupd
  by_cases hok : geoCoordOk lon lat
  · rw [if_pos hok] at hupd
    simp only [Except.ok.injEq] at hupd
    subst hupd
    have he : (⟨d, lon, lat⟩ : GeoEntry) ∈ geoUpsert ⟨d, lon, lat⟩ st.geo :=
      mem_geoUpsert_self _ _
    have hm : getLive (upsert d (⟨lat, lon, sid, d⟩, st.now + 3600) st.data) d st.now
        = some ⟨lat, lon, sid, d⟩ := by
      unfold getLive
      rw [lookupKey_upsert_self]
      show (if st.now < st.now + 3600 then
              some (⟨lat, lon, sid, d⟩ : DriverLocation) else none)
          = some (⟨lat, lon, sid, d⟩ : DriverLocation)
      rw [if_pos (by omega)]
    have hdist : distFn (lon, lat)
        ((⟨d, lon, lat⟩ : GeoEntry).lon, (⟨d, lon, lat⟩ : GeoEntry).lat) ≤ radius := by
      show distFn (lon, lat) (lon, lat) ≤ radius
      rw [hdd]
      exact le_of_lt hrad
    exact mem_nearbyList_intro distFn _ lat lon radius ⟨d, lon, lat⟩
      ⟨lat, lon, sid, d⟩ he hdist hm
  · rw [if_neg hok] at hupd
    exact absurd hupd (by simp)

/-- C7, witness: the theorem applied to a concrete update of d1 at
(12, 77) from the empty store, queried immediately with radius 5. -/
theorem C7_update_then_query_returns_driver_witness :
    GetNearbyDrivers evalDist stC4a 12 77 5 = .ok (nearbyList evalDist stC4a 12 77 5) ∧
    (⟨12, 77, "s1", "d1"⟩ : DriverLocation) ∈ nearbyList evalDist stC4a 12 77 5 :=
  C7_update_then_query_returns_driver evalDist initialState stC4a "d1" 12 77 "s1" 5
    (by decide) (by decide) (by decide)

/-- C8: every list the nearby query returns is sorted in non-decreasing
order of the collaborator distance from the query point, and an empty
store yields the empty list as an ok (non-error) result. -/
theorem C8_nearby_sorted_and_empty_ok :
    ∀ (distFn : ℚ × ℚ → ℚ × ℚ → ℚ) (st : RedisState) (lat lon radius : ℚ),
      (∀ l, GetNearbyDrivers distFn st lat lon radius = .ok l →
        List.Sorted (fun a b : ℚ => a ≤ b)
          (l.map (fun r => distFn (lon, lat) (r.longitude, r.latitude)))) ∧
      (st.geo = [] → GetNearbyDrivers distFn st lat lon radius = .ok []) := by
  intro distFn st lat lon radius
  constructor
  · intro l hl
    rw [getNearbyDrivers_eq_ok distFn st lat lon radius] at hl
    simp only [Except.ok.injEq] at hl
    subst hl
    unfold nearbyList GetNearbyDrivers
    apply sorted_nearby_aux distFn (lon, lat) st.data st.now
    · exact List.sorted_insertionSort hitLE _
    · intro h hh
      exact dist_of_mem_geoRadius distFn st lon lat radius h hh
  · intro hempty
    unfold GetNearbyDrivers geoRadius
    rw [hempty]
    rfl

/-- C8, witness: the theorem applied to the concrete mixed store
(sorted result) and to the empty store (ok empty list). -/
theorem C8_nearby_sorted_and_empty_ok_witness :
    List.Sorted (fun a b : ℚ => a ≤ b)
      ((nearbyList evalDist stMix 12 77 5).map
        (fun r => evalDist (77, 12) (r.longitude, r.latitude))) ∧
    GetNearbyDrivers evalDist initialState 12 77 5 = .ok [] := by
  constructor
  · exact (C8_nearby_sorted_and_empty_ok evalDist stMix 12 77 5).1 _
      (getNearbyDrivers_eq_ok evalDist stMix 12 77 5)
  · exact (C8_nearby_sorted_and_empty_ok evalDist initialState 12 77 5).2 rfl

/-- C9: the nearby query returns ok (never an error) and its result
contains exactly the join of the spatial hits within the radius with
the still-live metadata records: an entry whose metadata key is
missing or expired contributes nothing, silently — effective expiry of
a stale driver happens at query time through this metadata lookup. -/
theorem C9_nearby_characterization :
    ∀ (distFn : ℚ × ℚ → ℚ × ℚ → ℚ) (st : RedisState) (lat lon radius : ℚ),
      ∃ l, GetNearbyDrivers distFn st lat lon radius = .ok l ∧
        ∀ r, r ∈ l ↔ ∃ e ∈ st.geo, distFn (lon, lat) (e.lon, e.lat) ≤ radius ∧
          ∃ m, getLive st.data e.name st.now = some m ∧
            r = { m with latitude := e.lat, longitude := e.lon } := by
  intro distFn st lat lon radius
  refine ⟨nearbyList distFn st lat lon radius,
    getNearbyDrivers_eq_ok distFn st lat lon radius, ?_⟩
  intro r
  constructor
  · exact mem_nearbyList_elim distFn st lat lon radius r
  · rintro ⟨e, he, hd, m, hm, rfl⟩
    exact mem_nearbyList_intro distFn st lat lon radius e m he hd hm

/-- C9, witness: the theorem applied to the mixed store: the driver
with live metadata is in the result while the driver whose metadata
deadline has passed has no live metadata record to join against. -/
theorem C9_nearby_characterization_witness :
    ∃ l, GetNearbyDrivers evalDist stMix 12 77 5 = .ok l ∧
      (⟨12, 77, "sL", "live1"⟩ : DriverLocation) ∈ l ∧
      getLive stMix.data "stale1" stMix.now = none := by
  obtain ⟨l, hok, hiff⟩ := C9_nearby_characterization evalDist stMix 12 77 5
  refine ⟨l, hok, ?_, by decide⟩
  exact (hiff _).mpr ⟨⟨"live1", 77, 12⟩, by decide, by decide,
    ⟨12, 77, "sL", "live1"⟩, by decide, rfl⟩

/-- C2, counterexample: driver d1 sits in the geo index with live
metadata but is marked offline in the system of record; the socket
dispatch path still addresses the ride request to room driver:d1 even
though the eligible row set (and hence the push token set) is empty —
the realtime delivery of the RideRequestEvent is not restricted to
eligible drivers. -/
theorem C2_dispatch_counterexample :
    socketDispatchTargets evalDist stGeo1 12 77 = ["driver:d1"] ∧
    eligibleRows dbOffline
      ((nearbyList evalDist stGeo1 12 77 5).map (fun d => d.driverId)) "Car" = [] ∧
    dispatchPushTokens evalDist stGeo1 dbOffline 12 77 "Car" = [] := by
  refine ⟨by decide, by decide, by decide⟩

/-- C2, amended: only the push-notification path filters by
eligibility — every pushed token belongs to a driver row that is
online, active, of the requested vehicle class, with that token
registered, and nearby; the realtime (socket) fan-out addresses the
raw nearby list as-is, with no eligibility input at all; and the count
returned to the rider is the raw nearby count. -/
theorem C2_dispatch_amended :
    ∀ (distFn : ℚ × ℚ → ℚ × ℚ → ℚ) (st : RedisState) (db : List DriverRec)
      (originLat originLng : ℚ) (vt : String),
      (∀ tok ∈ dispatchPushTokens distFn st db originLat originLng vt,
        ∃ drec ∈ db, drec.notificationToken = some tok ∧ drec.isOnline = true ∧
          drec.status = "active" ∧ drec.vehicleType = vt ∧
          drec.id ∈ (nearbyList distFn st originLat originLng 5).map
            (fun d => d.driverId)) ∧
      (socketDispatchTargets distFn st originLat originLng =
        (nearbyList distFn st originLat originLng 5).map
          (fun d => "driver:" ++ d.driverId)) ∧
      (∀ rides uid rid newId cached, GetPlannedRoute st rid = .ok cached →
        (CreateRide distFn st rides uid rid vt newId).2.1 =
          some (newId,
            (nearbyList distFn st cached.originLat cached.originLng 5).length)) := by
  intro distFn st db originLat originLng vt
  refine ⟨?_, rfl, ?_⟩
  · intro tok htok
    unfold dispatchPushTokens at htok
    by_cases hnil : (nearbyList distFn st originLat originLng 5).length = 0
    · rw [if_pos hnil] at htok
      simp at htok
    · rw [if_neg hnil] at htok
      obtain ⟨drec, hdrec, hmap⟩ := List.mem_filterMap.mp htok
      unfold eligibleRows at hdrec
      obtain ⟨hdb, hcond⟩ := List.mem_filter.mp hdrec
      simp only [decide_eq_true_eq] at hcond
      cases hnt : drec.notificationToken with
      | none => rw [hnt] at hmap; simp at hmap
      | some t =>
          rw [hnt] at hmap
          dsimp only at hmap
          by_cases ht : t ≠ ""
          · rw [if_pos ht] at hmap
            simp only [Option.some.injEq] at hmap
            refine ⟨drec, hdb, ?_, hcond.2.1, hcond.2.2.1, hcond.2.2.2.1, hcond.1⟩
            rw [hnt, hmap]
          · rw [if_neg ht] at hmap
            simp at hmap
  · intro rides uid rid newId cached hc
    unfold CreateRide
    rw [hc]

/-- C2, witness: the amended theorem applied to the concrete store
with d1 nearby and a system of record where d1 is online and eligible:
the pushed token tok1 is traced back to an eligible nearby row, and
the socket targets equal the raw nearby room list. -/
theorem C2_dispatch_amended_witness :
    ("tok1" ∈ dispatchPushTokens evalDist stGeo1 dbOnline 12 77 "Car") ∧
    (∃ drec ∈ dbOnline, drec.notificationToken = some "tok1" ∧ drec.isOnline = true ∧
      drec.status = "active" ∧ drec.vehicleType = "Car" ∧
      drec.id ∈ (nearbyList evalDist stGeo1 12 77 5).map (fun d => d.driverId)) ∧
    socketDispatchTargets evalDist stGeo1 12 77 =
      (nearbyList evalDist stGeo1 12 77 5).map (fun d => "driver:" ++ d.driverId) := by
  refine ⟨by decide, ?_, (C2_dispatch_amended evalDist stGeo1 dbOnline 12 77 "Car").2.1⟩
  exact (C2_dispatch_amended evalDist stGeo1 dbOnline 12 77 "Car").1 "tok1" (by decide)

/-- C4, counterexample: the state reached from the empty store by one
position update for d1 followed by one hour of idle time is reachable,
still carries d1's entry in the spatial structure, but has no live
DriverPosition metadata record for d1 — the metadata key has a 1-hour
TTL while the spatial entry has none, so the claimed invariant fails
and the spatial entry does not expire via any index TTL. -/
theorem C4_geo_meta_counterexample :
    Reachable stC4b ∧ (∃ e ∈ stC4b.geo, e.name = "d1") ∧
    getLive stC4b.data "d1" stC4b.now = none := by
  refine ⟨?_, ⟨⟨"d1", 77, 12⟩, by decide, rfl⟩, by decide⟩
  have h1 : Step initialState stC4a :=
    Step.update initialState stC4a "d1" 12 77 "s1" (by decide)
  have h2 : Step stC4a stC4b := by
    have heq : stC4b = tick stC4a 3600 := by decide
    rw [heq]
    exact Step.timePass stC4a 3600
  exact Relation.ReflTransGen.tail (Relation.ReflTransGen.single h1) h2

/-- C4, amended: in every reachable state the inclusion that does hold
runs from metadata to the spatial structure — every live metadata
record names itself and has a corresponding spatial entry — every
metadata deadline lies at most one hour ahead, and a driver whose
metadata is no longer live is absent from every nearby query result
(expiry is effective at query time through the metadata join, while
the spatial entry itself carries no TTL). -/
theorem C4_geo_meta_amended :
    ∀ st : RedisState, Reachable st →
      (∀ k m, getLive st.data k st.now = some m →
        m.driverId = k ∧ ∃ e ∈ st.geo, e.name = k) ∧
      (∀ p ∈ st.data, p.2.2 ≤ st.now + 3600) ∧
      (∀ (distFn : ℚ × ℚ → ℚ × ℚ → ℚ) (lat lon radius : ℚ) (k : String),
        getLive st.data k st.now = none →
        ∀ r ∈ nearbyList distFn st lat lon radius, r.driverId ≠ k) := by
  intro st hreach
  have hinv := reachable_dataGeoInv hreach
  refine ⟨?_, ?_, ?_⟩
  · intro k m hm
    obtain ⟨dl, hmem, hlt⟩ := getLive_some_mem hm
    obtain ⟨h1, h2, e, he, hname⟩ := hinv (k, m, dl) hmem
    exact ⟨h1, e, he, hname⟩
  · intro p hp
    exact (hinv p hp).2.1
  · intro distFn lat lon radius k hnone r hr hcon
    obtain ⟨e, he, hd, m, hm, rfl⟩ := mem_nearbyList_elim distFn st lat lon radius r hr
    have hmk : m.driverId = k := hcon
    obtain ⟨dl, hmem, hlt⟩ := getLive_some_mem hm
    have hkey := (hinv (e.name, m, dl) hmem).1
    have hek : e.name = k := hkey.symm.trans hmk
    rw [hek] at hm
    rw [hnone] at hm
    simp at hm

/-- C4, witness: the amended theorem applied to the concrete reachable
state right after d1's update, before any time has passed. -/
theorem C4_geo_meta_amended_witness :
    (∀ k m, getLive stC4a.data k stC4a.now = some m →
      m.driverId = k ∧ ∃ e ∈ stC4a.geo, e.name = k) ∧
    (∀ p ∈ stC4a.data, p.2.2 ≤ stC4a.now + 3600) := by
  have hreach : Reachable stC4a :=
    Relation.ReflTransGen.single
      (Step.update initialState stC4a "d1" 12 77 "s1" (by decide))
  have h := C4_geo_meta_amended stC4a hreach
  exact ⟨h.1, h.2.1⟩

end RideWave
